import Mathlib

/-!
# Help widget (`src/plugins/help/helpwidget.cpp`)

A shallow embedding of `Help::Internal::HelpWidget`: the panel that wraps a help
viewer with a tool bar, registers its actions with the host's action manager and
forwards a few viewer notifications.

The widget is GUI glue, so its state is modelled explicitly:

* `World` is the state of the host services the widget talks to (action manager,
  context objects, registered windows, the advanced edit menu), the heap allocator,
  the function-local `static int windowId` and the installed translation;
* `HelpWidget` is the state of one widget object: its members, its signal/slot
  connections, its window attributes, and the log of signals it has emitted.

Every operation is a function on these states that follows the statements of the
C++ function it embeds, in source order.
-/

namespace Help.Internal

/-! ## Qt string formatting -/

namespace QString

/-- Decimal value of an ASCII digit (`QChar::digitValue`, restricted to ASCII). -/
def digitValue (c : Char) : Option Nat :=
  if c.isDigit then some (c.toNat - 48) else none

/-- The place marker that starts at the head of the text, if any: a percent sign,
an optional `L`, and one or two digits. Returns the marker's number and its length
in characters. -/
def escapeAt : List Char → Option (Nat × Nat)
  | [] => none
  | c :: rest =>
    if c = '%' then
      let loc : Nat := match rest with
        | l :: _ => if l = 'L' then 1 else 0
        | [] => 0
      match rest.drop loc with
      | [] => none
      | d :: rest2 =>
        match digitValue d with
        | none => none
        | some e =>
          match rest2 with
          | [] => some (e, 2 + loc)
          | d2 :: _ =>
            match digitValue d2 with
            | none => some (e, 2 + loc)
            | some e2 => some (10 * e + e2, 3 + loc)
    else none

/-- The lowest place-marker number occurring in the text (`findArgEscapes`). A marker
never contains a percent sign, so looking at every position finds the same markers as
the scan that jumps over each marker it has read. -/
def minEscape : List Char → Option Nat
  | [] => none
  | c :: cs =>
    match escapeAt (c :: cs), minEscape cs with
    | some (n, _), some m => some (min n m)
    | some (n, _), none => some n
    | none, r => r

/-- Copy the text, writing the argument in place of every marker whose number is the
lowest one (`replaceArgEscapes` with field width 0). The counter is the number of
characters of an already replaced marker that are still to be dropped. -/
def replaceArgEscapes (minEsc : Nat) (a : List Char) : Nat → List Char → List Char
  | _, [] => []
  | skip + 1, _ :: cs => replaceArgEscapes minEsc a skip cs
  | 0, c :: cs =>
    match escapeAt (c :: cs) with
    | some (n, len) =>
      if n = minEsc then a ++ replaceArgEscapes minEsc a (len - 1) cs
      else c :: replaceArgEscapes minEsc a 0 cs
    | none => c :: replaceArgEscapes minEsc a 0 cs

/-- The call `QString::arg(const QString &)`: the lowest-numbered place marker is
replaced by the argument; a text without a marker is returned unchanged. -/
def arg (fmt a : String) : String :=
  match minEscape fmt.data with
  | none => fmt
  | some m => String.mk (replaceArgEscapes m a.data 0 fmt.data)

end QString

/-! ## Host services -/

/-- Identity of a heap-allocated object (the value of the pointer). -/
abbrev Ptr := Nat

/-- The type `Core::Id`: an identifier, compared by its name. -/
abbrev Id := String

/-- The type `Core::Context`: a list of context identifiers. -/
abbrev Context := List Id

/-- Digit characters of a number, most significant first; the first argument bounds
the number of digits produced. -/
def decimalDigits : Nat → Nat → List Char
  | 0, _ => []
  | fuel + 1, n =>
    if n < 10 then [Char.ofNat (48 + n)]
    else decimalDigits fuel (n / 10) ++ [Char.ofNat (48 + n % 10)]

/-- Modelled from the spec: `QByteArray::number(int)` in base 10, which
`Core::Id::withSuffix(int)` (coreplugin/id.cpp, not under src/) appends to the name:
the decimal digits, after a minus sign for a negative value. -/
def number : Int → String
  | Int.ofNat n => String.mk (decimalDigits (n + 1) n)
  | Int.negSucc n => String.mk ('-' :: decimalDigits (n + 2) (n + 1))

/-- Modelled from the spec: `Core::Id::withSuffix(int)` (coreplugin/id.cpp, not under
src/): the identifier whose name is this one's name "suffixed with n". -/
def Id.withSuffix (name : Id) (suffix : Int) : Id :=
  name ++ number suffix

/-- Pre-increment of a 32-bit `int` (two's complement wrap-around past `INT_MAX`). -/
def preIncrement (x : Int) : Int :=
  if x + 1 > 2147483647 then x + 1 - 4294967296 else x + 1

/-- The widget styles of `HelpWidget::WidgetStyle`. -/
inductive WidgetStyle
  | ModeWidget
  | SideBarWidget
  | ExternalWindow
  deriving DecidableEq, Repr

/-- The command identifiers the widget registers actions for. Their values are
constants of headers that are not part of this file; only their names are used. -/
inductive CommandId
  | CONTEXT_HELP
  | HELP_PREVIOUS
  | HELP_NEXT
  | COPY
  | INCREASE_FONT_SIZE
  | DECREASE_FONT_SIZE
  | RESET_FONT_SIZE
  deriving DecidableEq, Repr

/-- The two `QKeySequence` standard keys the constructor uses. -/
inductive StandardKey
  | Back
  | Forward
  deriving DecidableEq, Repr

/-- One entry of the action manager: an action bound to a command in a context. -/
structure Registration where
  action : Ptr
  id : CommandId
  context : Context
  deriving DecidableEq, Repr

/-- A `Core::IContext` object: a context attached to a widget. -/
structure IContext where
  ptr : Ptr
  context : Context
  widget : Ptr
  deriving DecidableEq, Repr

/-- The calls the widget makes on the host, in the order it makes them. -/
inductive HostCall
  | registerAction (action : Ptr) (id : CommandId) (context : Context)
  | unregisterAction (action : Ptr) (id : CommandId)
  | setDefaultKeySequence (id : CommandId) (key : StandardKey)
  | qtcCheckFailed (condition : String)
  | containerAddAction (id : CommandId)
  | addContextObject (obj : Ptr)
  | removeContextObject (obj : Ptr)
  | registerWindow (window : Ptr) (context : Context)
  deriving DecidableEq, Repr

/-- State outside the widget: the installed translation, the allocator, the static
window counter of the constructor, and the host services. -/
structure World where
  /-- The function `QObject::tr` under the installed translators. -/
  tr : String → String
  /-- The next object identity handed out by `new`. -/
  nextObject : Ptr
  /-- The function-local `static int windowId` of the constructor. -/
  windowId : Int
  /-- The action manager: actions registered for commands. -/
  registrations : List Registration
  /-- The context objects known to the host. -/
  contextObjects : List IContext
  /-- The windows registered with the host, with their contexts. -/
  windows : List (Ptr × Context)
  /-- The container `M_EDIT_ADVANCED` with the commands of its font group, or
  nothing when the host has no such container. -/
  advancedMenu : Option (List CommandId)
  /-- Every call made on the host so far. -/
  calls : List HostCall

/-- Operator `new`: hands out a fresh object identity. -/
def World.alloc (σ : World) : Ptr × World :=
  (σ.nextObject, { σ with nextObject := σ.nextObject + 1 })

/-- Modelled from the spec: `Core::ActionManager::registerAction` (coreplugin, not
under src/), "register ... named commands bound to contexts": the action is recorded
for the command in the context. The returned command is identified by its id. -/
def ActionManager.registerAction (σ : World) (action : Ptr) (id : CommandId)
    (context : Context) : World :=
  { σ with
    registrations := σ.registrations ++ [{ action := action, id := id, context := context }]
    calls := σ.calls ++ [HostCall.registerAction action id context] }

/-- Modelled from the spec: `Core::ActionManager::unregisterAction` (coreplugin, not
under src/), "unregister named commands": every record of the action for the command
is removed. -/
def ActionManager.unregisterAction (σ : World) (action : Ptr) (id : CommandId) : World :=
  { σ with
    registrations := σ.registrations.filter (fun r => ¬ (r.action = action ∧ r.id = id))
    calls := σ.calls ++ [HostCall.unregisterAction action id] }

/-- The call `Core::Command::setDefaultKeySequence`, recorded in the call log. -/
def Command.setDefaultKeySequence (σ : World) (id : CommandId) (key : StandardKey) : World :=
  { σ with calls := σ.calls ++ [HostCall.setDefaultKeySequence id key] }

/-- The check `QTC_CHECK(cond)`: a failed condition is logged, execution continues. -/
def qtcCheck (σ : World) (cond : Bool) (text : String) : World :=
  if cond then σ else { σ with calls := σ.calls ++ [HostCall.qtcCheckFailed text] }

/-- The call `advancedMenu->addAction(cmd, G_EDIT_FONT)` on a present container. -/
def ActionContainer.addAction (σ : World) (id : CommandId) : World :=
  { σ with
    advancedMenu := σ.advancedMenu.map (fun m => m ++ [id])
    calls := σ.calls ++ [HostCall.containerAddAction id] }

/-- Modelled from the spec: `Core::ICore::addContextObject` (coreplugin, not under
src/), "IDE context-object registration". -/
def ICore.addContextObject (σ : World) (c : IContext) : World :=
  { σ with
    contextObjects := σ.contextObjects ++ [c]
    calls := σ.calls ++ [HostCall.addContextObject c.ptr] }

/-- Modelled from the spec: `Core::ICore::removeContextObject` (coreplugin, not under
src/): the context object is no longer known to the host. -/
def ICore.removeContextObject (σ : World) (c : IContext) : World :=
  { σ with
    contextObjects := σ.contextObjects.filter (fun o => ¬ (o.ptr = c.ptr))
    calls := σ.calls ++ [HostCall.removeContextObject c.ptr] }

/-- Modelled from the spec: `Core::ICore::registerWindow` (coreplugin, not under src/),
"IDE window registration": the window is recorded with its context. -/
def ICore.registerWindow (σ : World) (window : Ptr) (context : Context) : World :=
  { σ with
    windows := σ.windows ++ [(window, context)]
    calls := σ.calls ++ [HostCall.registerWindow window context] }

/-! ## The viewer and the widget -/

/-- An entry of a history popup menu. -/
abbrev MenuItem := String

/-- The slots of the viewer that the widget connects actions to. -/
inductive ViewerSlot
  | backward
  | forward
  | copy
  | scaleUp
  | scaleDown
  | resetScale
  deriving DecidableEq, Repr

/-- The viewer as the widget sees it (`HelpViewer`, defined outside this file): the
values its accessors report and what its history accessors add to a menu. -/
structure HelpViewer where
  ptr : Ptr
  title : String
  source : String
  isBackwardAvailable : Bool
  isForwardAvailable : Bool
  addBackHistoryItems : List MenuItem → List MenuItem
  addForwardHistoryItems : List MenuItem → List MenuItem
  openInNewPageActionVisible : Bool

/-- A `QAction`: its identity, text, icon resource and enabled flag. -/
structure QAction where
  ptr : Ptr
  text : String
  icon : String
  enabled : Bool
  deriving DecidableEq, Repr

/-- The signals declared by the widget. -/
inductive Signal
  | openHelpMode (source : String)
  | closeButtonClicked
  | aboutToClose
  deriving DecidableEq, Repr

/-- The signals of other objects that the constructor connects. -/
inductive Sender
  | switchToHelp_triggered
  | backMenu_aboutToShow
  | forwardMenu_aboutToShow
  | backAction_triggered
  | viewer_backwardAvailable
  | forwardAction_triggered
  | viewer_forwardAvailable
  | copy_triggered
  | scaleUp_triggered
  | scaleDown_triggered
  | resetScale_triggered
  | close_triggered
  | viewer_titleChanged
  deriving DecidableEq, Repr

/-- The receiving ends of the connections made by the constructor. -/
inductive Slot
  | helpModeButtonClicked
  | updateBackMenu
  | updateForwardMenu
  | updateWindowTitle
  | backAction_setEnabled
  | forwardAction_setEnabled
  | viewer (slot : ViewerSlot)
  | closeButtonClicked
  deriving DecidableEq, Repr

/-- State of one widget object. -/
structure HelpWidget where
  self : Ptr
  m_style : WidgetStyle
  m_context : IContext
  m_switchToHelp : QAction
  m_backAction : QAction
  m_backMenu : List MenuItem
  m_forwardAction : QAction
  m_forwardMenu : List MenuItem
  m_copy : QAction
  m_scaleUp : Option QAction
  m_scaleDown : Option QAction
  m_resetScale : Option QAction
  m_viewer : HelpViewer
  /-- The default actions of the tool buttons, in layout order. -/
  toolBar : List Ptr
  /-- The connections made so far, oldest first. -/
  connections : List (Sender × Slot)
  /-- The viewer slots invoked through connections, oldest first. -/
  viewerCalls : List ViewerSlot
  windowTitle : String
  visible : Bool
  /-- Attribute `Qt::WA_DeleteOnClose`. -/
  deleteOnClose : Bool
  /-- Attribute `Qt::WA_QuitOnClose`. -/
  quitOnClose : Bool
  /-- Whether `deleteLater` has been requested by a close. -/
  deleteLaterPosted : Bool
  /-- The signals emitted by the widget so far, oldest first. -/
  emitted : List Signal

/-- The member `HelpWidget::closeEvent`. -/
def HelpWidget.closeEvent (w : HelpWidget) : HelpWidget :=
  { w with emitted := w.emitted ++ [Signal.aboutToClose] }

/-- The call `QWidget::close`: the close event is delivered; `closeEvent` leaves it
accepted, so the widget is hidden and, with `WA_DeleteOnClose`, scheduled for
deletion. -/
def HelpWidget.close (w : HelpWidget) : HelpWidget :=
  let w := w.closeEvent
  let w := { w with visible := false }
  if w.deleteOnClose then { w with deleteOnClose := false, deleteLaterPosted := true } else w

/-- The call `QWidget::show`. -/
def HelpWidget.show (w : HelpWidget) : HelpWidget :=
  { w with visible := true }

/-- The member `HelpWidget::updateBackMenu`. -/
def HelpWidget.updateBackMenu (w : HelpWidget) : HelpWidget :=
  let w := { w with m_backMenu := [] }
  { w with m_backMenu := w.m_viewer.addBackHistoryItems w.m_backMenu }

/-- The member `HelpWidget::updateForwardMenu`. -/
def HelpWidget.updateForwardMenu (w : HelpWidget) : HelpWidget :=
  let w := { w with m_forwardMenu := [] }
  { w with m_forwardMenu := w.m_viewer.addForwardHistoryItems w.m_forwardMenu }

/-- The member `HelpWidget::updateWindowTitle`, under the translation `tr`. -/
def HelpWidget.updateWindowTitle (tr : String → String) (w : HelpWidget) : HelpWidget :=
  let pageTitle := w.m_viewer.title
  if pageTitle.isEmpty then
    { w with windowTitle := tr "Help" }
  else
    { w with windowTitle := QString.arg (tr "Help - %1") pageTitle }

/-- The member `HelpWidget::helpModeButtonClicked`. -/
def HelpWidget.helpModeButtonClicked (w : HelpWidget) : HelpWidget :=
  let w := { w with emitted := w.emitted ++ [Signal.openHelpMode w.m_viewer.source] }
  if w.m_style = WidgetStyle.ExternalWindow then w.close else w

/-- Run one connected slot; the flag is the argument of a `bool` signal. -/
def HelpWidget.runSlot (tr : String → String) (arg : Bool) (w : HelpWidget) :
    Slot → HelpWidget
  | Slot.helpModeButtonClicked => w.helpModeButtonClicked
  | Slot.updateBackMenu => w.updateBackMenu
  | Slot.updateForwardMenu => w.updateForwardMenu
  | Slot.updateWindowTitle => w.updateWindowTitle tr
  | Slot.backAction_setEnabled => { w with m_backAction := { w.m_backAction with enabled := arg } }
  | Slot.forwardAction_setEnabled =>
    { w with m_forwardAction := { w.m_forwardAction with enabled := arg } }
  | Slot.viewer slot => { w with viewerCalls := w.viewerCalls ++ [slot] }
  | Slot.closeButtonClicked => { w with emitted := w.emitted ++ [Signal.closeButtonClicked] }

/-- Emission of a connected signal: every slot connected to it runs, in connection
order. -/
def HelpWidget.deliver (tr : String → String) (w : HelpWidget) (s : Sender) (arg : Bool) :
    HelpWidget :=
  ((w.connections.filter (fun c => c.1 = s)).map Prod.snd).foldl (HelpWidget.runSlot tr arg) w

/-! ## Construction and destruction -/

/-- The helper `toolButton`: the new button is identified by its default action. The
tool tip, which shows the command's shortcut, is not part of the model. -/
def toolButton (action : QAction) : Ptr :=
  action.ptr

/-- The constructor `HelpWidget::HelpWidget`, first part: the member initialisers, the
help-mode, back and forward actions, the viewer, the context object, the availability
wiring and the copy action. The viewer argument stands for the object returned by
`HelpPlugin::createHelpViewer`. -/
def HelpWidget.constructCommon (σ : World) (context : Context) (style : WidgetStyle)
    (viewer : HelpViewer) : HelpWidget × World :=
  let (self, σ) := σ.alloc
  -- m_switchToHelp
  let (p, σ) := σ.alloc
  let m_switchToHelp : QAction :=
    { ptr := p, text := σ.tr "Go to Help Mode", icon := "", enabled := true }
  let σ := ActionManager.registerAction σ m_switchToHelp.ptr CommandId.CONTEXT_HELP context
  let connections := [(Sender.switchToHelp_triggered, Slot.helpModeButtonClicked)]
  let toolBar := [toolButton m_switchToHelp]
  -- m_backAction, m_backMenu
  let (p, σ) := σ.alloc
  let m_backAction : QAction :=
    { ptr := p, text := σ.tr "Back", icon := ":/help/images/previous.png", enabled := true }
  let m_backMenu : List MenuItem := []
  let connections := connections ++ [(Sender.backMenu_aboutToShow, Slot.updateBackMenu)]
  let σ := ActionManager.registerAction σ m_backAction.ptr CommandId.HELP_PREVIOUS context
  let σ := Command.setDefaultKeySequence σ CommandId.HELP_PREVIOUS StandardKey.Back
  let toolBar := toolBar ++ [toolButton m_backAction]
  -- m_forwardAction, m_forwardMenu
  let (p, σ) := σ.alloc
  let m_forwardAction : QAction :=
    { ptr := p, text := σ.tr "Forward", icon := ":/help/images/next.png", enabled := true }
  let m_forwardMenu : List MenuItem := []
  let connections := connections ++ [(Sender.forwardMenu_aboutToShow, Slot.updateForwardMenu)]
  let σ := ActionManager.registerAction σ m_forwardAction.ptr CommandId.HELP_NEXT context
  let σ := Command.setDefaultKeySequence σ CommandId.HELP_NEXT StandardKey.Forward
  let toolBar := toolBar ++ [toolButton m_forwardAction]
  -- m_viewer
  let (p, σ) := σ.alloc
  let m_viewer : HelpViewer := { viewer with ptr := p }
  -- m_context
  let (p, σ) := σ.alloc
  let m_context : IContext := { ptr := p, context := context, widget := m_viewer.ptr }
  let σ := ICore.addContextObject σ m_context
  -- availability of back and forward
  let m_backAction := { m_backAction with enabled := m_viewer.isBackwardAvailable }
  let connections := connections ++ [(Sender.backAction_triggered, Slot.viewer ViewerSlot.backward)]
  let connections := connections ++ [(Sender.viewer_backwardAvailable, Slot.backAction_setEnabled)]
  let m_forwardAction := { m_forwardAction with enabled := m_viewer.isForwardAvailable }
  let connections :=
    connections ++ [(Sender.forwardAction_triggered, Slot.viewer ViewerSlot.forward)]
  let connections :=
    connections ++ [(Sender.viewer_forwardAvailable, Slot.forwardAction_setEnabled)]
  -- m_copy
  let (p, σ) := σ.alloc
  let m_copy : QAction := { ptr := p, text := "", icon := "", enabled := true }
  let σ := ActionManager.registerAction σ m_copy.ptr CommandId.COPY context
  let connections := connections ++ [(Sender.copy_triggered, Slot.viewer ViewerSlot.copy)]
  ({ self := self
     m_style := style
     m_context := m_context
     m_switchToHelp := m_switchToHelp
     m_backAction := m_backAction
     m_backMenu := m_backMenu
     m_forwardAction := m_forwardAction
     m_forwardMenu := m_forwardMenu
     m_copy := m_copy
     m_scaleUp := none
     m_scaleDown := none
     m_resetScale := none
     m_viewer := m_viewer
     toolBar := toolBar
     connections := connections
     viewerCalls := []
     windowTitle := ""
     visible := false
     deleteOnClose := false
     quitOnClose := true
     deleteLaterPosted := false
     emitted := [] }, σ)

/-- The constructor, second part: the lookup of the advanced edit menu, the check on
it, and the three font-scaling actions when the menu exists. -/
def HelpWidget.constructFontActions (w : HelpWidget) (σ : World) (context : Context) :
    HelpWidget × World :=
  let advancedMenu := σ.advancedMenu
  let σ := qtcCheck σ advancedMenu.isSome "advancedMenu"
  if advancedMenu.isSome then
    -- m_scaleUp
    let (p, σ) := σ.alloc
    let m_scaleUp : QAction :=
      { ptr := p, text := σ.tr "Increase Font Size", icon := "", enabled := true }
    let σ := ActionManager.registerAction σ m_scaleUp.ptr CommandId.INCREASE_FONT_SIZE context
    let w := { w with
      m_scaleUp := some m_scaleUp
      connections := w.connections ++ [(Sender.scaleUp_triggered, Slot.viewer ViewerSlot.scaleUp)] }
    let σ := ActionContainer.addAction σ CommandId.INCREASE_FONT_SIZE
    -- m_scaleDown
    let (p, σ) := σ.alloc
    let m_scaleDown : QAction :=
      { ptr := p, text := σ.tr "Decrease Font Size", icon := "", enabled := true }
    let σ := ActionManager.registerAction σ m_scaleDown.ptr CommandId.DECREASE_FONT_SIZE context
    let w := { w with
      m_scaleDown := some m_scaleDown
      connections :=
        w.connections ++ [(Sender.scaleDown_triggered, Slot.viewer ViewerSlot.scaleDown)] }
    let σ := ActionContainer.addAction σ CommandId.DECREASE_FONT_SIZE
    -- m_resetScale
    let (p, σ) := σ.alloc
    let m_resetScale : QAction :=
      { ptr := p, text := σ.tr "Reset Font Size", icon := "", enabled := true }
    let σ := ActionManager.registerAction σ m_resetScale.ptr CommandId.RESET_FONT_SIZE context
    let w := { w with
      m_resetScale := some m_resetScale
      connections :=
        w.connections ++ [(Sender.resetScale_triggered, Slot.viewer ViewerSlot.resetScale)] }
    let σ := ActionContainer.addAction σ CommandId.RESET_FONT_SIZE
    (w, σ)
  else
    (w, σ)

/-- The constructor, last part: the close button of a side bar widget, or the window
registration, attributes and title of an external window. -/
def HelpWidget.constructStyle (w : HelpWidget) (σ : World) (style : WidgetStyle) :
    HelpWidget × World :=
  if style = WidgetStyle.SideBarWidget then
    let (p, σ) := σ.alloc
    let close : QAction := { ptr := p, text := "", icon := "ICON_BUTTON_CLOSE", enabled := true }
    let w := { w with
      connections := w.connections ++ [(Sender.close_triggered, Slot.closeButtonClicked)] }
    let w := { w with toolBar := w.toolBar ++ [toolButton close] }
    let w := { w with m_viewer := { w.m_viewer with openInNewPageActionVisible := false } }
    (w, σ)
  else if style = WidgetStyle.ExternalWindow then
    let σ := { σ with windowId := preIncrement σ.windowId }
    let σ := ICore.registerWindow σ w.self [Id.withSuffix "Help.Window." σ.windowId]
    let w := { w with deleteOnClose := true }
    let w := { w with quitOnClose := false }
    let w := { w with
      connections := w.connections ++ [(Sender.viewer_titleChanged, Slot.updateWindowTitle)] }
    let w := w.updateWindowTitle σ.tr
    let w := { w with m_viewer := { w.m_viewer with openInNewPageActionVisible := false } }
    (w, σ)
  else
    (w, σ)

/-- The constructor `HelpWidget::HelpWidget(context, style, parent)`. -/
def HelpWidget.new (σ : World) (context : Context) (style : WidgetStyle)
    (viewer : HelpViewer) : HelpWidget × World :=
  let (w, σ) := HelpWidget.constructCommon σ context style viewer
  let (w, σ) := HelpWidget.constructFontActions w σ context
  HelpWidget.constructStyle w σ style

/-- The optional unregistration `if (m_action) unregisterAction(m_action, id)`. -/
def unregisterIfSet (σ : World) (action : Option QAction) (id : CommandId) : World :=
  match action with
  | some a => ActionManager.unregisterAction σ a.ptr id
  | none => σ

/-- The destructor `HelpWidget::~HelpWidget`. -/
def HelpWidget.destroy (w : HelpWidget) (σ : World) : World :=
  let σ := ICore.removeContextObject σ w.m_context
  let σ := ActionManager.unregisterAction σ w.m_copy.ptr CommandId.COPY
  let σ := ActionManager.unregisterAction σ w.m_switchToHelp.ptr CommandId.CONTEXT_HELP
  let σ := ActionManager.unregisterAction σ w.m_forwardAction.ptr CommandId.HELP_NEXT
  let σ := ActionManager.unregisterAction σ w.m_backAction.ptr CommandId.HELP_PREVIOUS
  let σ := unregisterIfSet σ w.m_scaleUp CommandId.INCREASE_FONT_SIZE
  let σ := unregisterIfSet σ w.m_scaleDown CommandId.DECREASE_FONT_SIZE
  let σ := unregisterIfSet σ w.m_resetScale CommandId.RESET_FONT_SIZE
  σ

/-! ## Observations used by the statements -/

/-- The signals emitted between two states of a widget. -/
def newSignals (before after : HelpWidget) : List Signal :=
  after.emitted.drop before.emitted.length

/-- The host calls made between two states of the world. -/
def newCalls (before after : World) : List HostCall :=
  after.calls.drop before.calls.length

/-- The (action, command) pair of a registration call. -/
def HostCall.registered : HostCall → Option (Ptr × CommandId)
  | HostCall.registerAction a id _ => some (a, id)
  | _ => none

/-- The (action, command) pair of an unregistration call. -/
def HostCall.unregistered : HostCall → Option (Ptr × CommandId)
  | HostCall.unregisterAction a id => some (a, id)
  | _ => none

/-- The context object of an `addContextObject` call. -/
def HostCall.addedContext : HostCall → Option Ptr
  | HostCall.addContextObject p => some p
  | _ => none

/-- The context object of a `removeContextObject` call. -/
def HostCall.removedContext : HostCall → Option Ptr
  | HostCall.removeContextObject p => some p
  | _ => none

/-- Whether a signal is `openHelpMode`, whatever source it carries. -/
def Signal.isOpenHelpMode : Signal → Bool
  | Signal.openHelpMode _ => true
  | _ => false

/-- The registration calls made between two states of the world, as (action, command)
pairs. -/
def registeredBetween (before after : World) : List (Ptr × CommandId) :=
  (newCalls before after).filterMap HostCall.registered

/-- The unregistration calls made between two states of the world, as (action, command)
pairs. -/
def unregisteredBetween (before after : World) : List (Ptr × CommandId) :=
  (newCalls before after).filterMap HostCall.unregistered

/-- A sequence of signal emissions reaching the widget, each with the flag it
carries (ignored by slots without a `bool` parameter). -/
def HelpWidget.deliverAll (tr : String → String) (w : HelpWidget)
    (events : List (Sender × Bool)) : HelpWidget :=
  events.foldl (fun w e => w.deliver tr e.1 e.2) w

/-- The flag carried by the last emission of the given signal in a sequence of
emissions, or the initial value when the signal does not occur. -/
def lastReported (s : Sender) (init : Bool) : List (Sender × Bool) → Bool
  | [] => init
  | e :: events => lastReported s (if e.1 = s then e.2 else init) events

/-- The allocator invariant: every object the host knows was allocated earlier, so
the objects `new` hands out from now on are not yet known to the host. -/
def World.Fresh (σ : World) : Prop :=
  (∀ r ∈ σ.registrations, r.action < σ.nextObject) ∧
  (∀ c ∈ σ.contextObjects, c.ptr < σ.nextObject)

/-- A viewer showing a page titled "Qt", with two pages behind it and one ahead. -/
def demoViewer : HelpViewer :=
  { ptr := 0
    title := "Qt"
    source := "qthelp://doc/index.html"
    isBackwardAvailable := true
    isForwardAvailable := false
    addBackHistoryItems := fun m => m ++ ["Page 1", "Page 2"]
    addForwardHistoryItems := fun m => m ++ ["Page 4"]
    openInNewPageActionVisible := true }

/-- A host without translation, with an advanced edit menu, one registered action and
one context object. -/
def demoWorld : World :=
  { tr := fun s => s
    nextObject := 10
    windowId := 0
    registrations := [{ action := 3, id := CommandId.COPY, context := ["Core.EditMode"] }]
    contextObjects := [{ ptr := 4, context := ["Core.EditMode"], widget := 5 }]
    windows := []
    advancedMenu := some []
    calls := [] }

/-- The widget constructed in the demo host with the given style. -/
def demoWidget (style : WidgetStyle) : HelpWidget :=
  (HelpWidget.new demoWorld ["Help.Sidebar"] style demoViewer).1

/-- A German translation of the two window-title labels; every other text is returned
unchanged. -/
def demoTranslation (s : String) : String :=
  if s = "Help" then "Hilfe" else if s = "Help - %1" then "Hilfe - %1" else s

/-! ## Auxiliary facts about the operations -/

theorem QString.arg_help (t : String) : QString.arg "Help - %1" t = "Help - " ++ t := by
  have h : QString.minEscape "Help - %1".data = some 1 := by decide
  unfold QString.arg
  rw [h]
  apply String.ext
  simp [QString.replaceArgEscapes, QString.escapeAt, QString.digitValue]

theorem updateWindowTitle_eq (tr : String → String) (w : HelpWidget) :
    w.updateWindowTitle tr = { w with
      windowTitle := if w.m_viewer.title.isEmpty then tr "Help"
        else QString.arg (tr "Help - %1") w.m_viewer.title } := by
  unfold HelpWidget.updateWindowTitle
  split <;> simp [*]

theorem close_eq (w : HelpWidget) :
    w.close = { w with
      emitted := w.emitted ++ [Signal.aboutToClose]
      visible := false
      deleteOnClose := false
      deleteLaterPosted := w.deleteOnClose || w.deleteLaterPosted } := by
  unfold HelpWidget.close HelpWidget.closeEvent
  cases h : w.deleteOnClose <;> simp [h]

theorem helpModeButtonClicked_emitted (w : HelpWidget) :
    w.helpModeButtonClicked.emitted = w.emitted ++
      (Signal.openHelpMode w.m_viewer.source ::
        if w.m_style = WidgetStyle.ExternalWindow then [Signal.aboutToClose] else []) := by
  unfold HelpWidget.helpModeButtonClicked
  by_cases h : w.m_style = WidgetStyle.ExternalWindow <;> simp [h, close_eq]

theorem new_connections (σ : World) (context : Context) (style : WidgetStyle)
    (viewer : HelpViewer) :
    (HelpWidget.new σ context style viewer).1.connections =
      [(Sender.switchToHelp_triggered, Slot.helpModeButtonClicked),
       (Sender.backMenu_aboutToShow, Slot.updateBackMenu),
       (Sender.forwardMenu_aboutToShow, Slot.updateForwardMenu),
       (Sender.backAction_triggered, Slot.viewer ViewerSlot.backward),
       (Sender.viewer_backwardAvailable, Slot.backAction_setEnabled),
       (Sender.forwardAction_triggered, Slot.viewer ViewerSlot.forward),
       (Sender.viewer_forwardAvailable, Slot.forwardAction_setEnabled),
       (Sender.copy_triggered, Slot.viewer ViewerSlot.copy)]
      ++ (if σ.advancedMenu.isSome then
           [(Sender.scaleUp_triggered, Slot.viewer ViewerSlot.scaleUp),
            (Sender.scaleDown_triggered, Slot.viewer ViewerSlot.scaleDown),
            (Sender.resetScale_triggered, Slot.viewer ViewerSlot.resetScale)] else [])
      ++ (match style with
          | WidgetStyle.SideBarWidget => [(Sender.close_triggered, Slot.closeButtonClicked)]
          | WidgetStyle.ExternalWindow => [(Sender.viewer_titleChanged, Slot.updateWindowTitle)]
          | WidgetStyle.ModeWidget => []) := by
  cases style <;> cases h : σ.advancedMenu <;>
    simp [HelpWidget.new, HelpWidget.constructCommon, HelpWidget.constructFontActions,
      HelpWidget.constructStyle, World.alloc, ActionManager.registerAction,
      Command.setDefaultKeySequence, ICore.addContextObject, qtcCheck, h,
      ActionContainer.addAction, ICore.registerWindow, updateWindowTitle_eq]

/-- The slots that run when a constructed widget receives a signal. -/
theorem new_slots (σ : World) (context : Context) (style : WidgetStyle)
    (viewer : HelpViewer) (s : Sender) :
    (((HelpWidget.new σ context style viewer).1.connections.filter
        (fun c => c.1 = s)).map Prod.snd) =
      match s with
      | Sender.switchToHelp_triggered => [Slot.helpModeButtonClicked]
      | Sender.backMenu_aboutToShow => [Slot.updateBackMenu]
      | Sender.forwardMenu_aboutToShow => [Slot.updateForwardMenu]
      | Sender.backAction_triggered => [Slot.viewer ViewerSlot.backward]
      | Sender.viewer_backwardAvailable => [Slot.backAction_setEnabled]
      | Sender.forwardAction_triggered => [Slot.viewer ViewerSlot.forward]
      | Sender.viewer_forwardAvailable => [Slot.forwardAction_setEnabled]
      | Sender.copy_triggered => [Slot.viewer ViewerSlot.copy]
      | Sender.scaleUp_triggered =>
        if σ.advancedMenu.isSome then [Slot.viewer ViewerSlot.scaleUp] else []
      | Sender.scaleDown_triggered =>
        if σ.advancedMenu.isSome then [Slot.viewer ViewerSlot.scaleDown] else []
      | Sender.resetScale_triggered =>
        if σ.advancedMenu.isSome then [Slot.viewer ViewerSlot.resetScale] else []
      | Sender.close_triggered =>
        if style = WidgetStyle.SideBarWidget then [Slot.closeButtonClicked] else []
      | Sender.viewer_titleChanged =>
        if style = WidgetStyle.ExternalWindow then [Slot.updateWindowTitle] else [] := by
  rw [new_connections]
  cases style <;> cases h : σ.advancedMenu <;> cases s <;> simp

theorem runSlot_connections (tr : String → String) (arg : Bool) (w : HelpWidget)
    (slot : Slot) : (w.runSlot tr arg slot).connections = w.connections := by
  cases slot <;>
    simp [HelpWidget.runSlot, updateWindowTitle_eq, HelpWidget.updateBackMenu,
      HelpWidget.updateForwardMenu, HelpWidget.helpModeButtonClicked, close_eq]
  split <;> rfl

theorem foldl_runSlot_connections (tr : String → String) (arg : Bool) (slots : List Slot) :
    ∀ w : HelpWidget, (slots.foldl (HelpWidget.runSlot tr arg) w).connections = w.connections := by
  induction slots with
  | nil => intro w; rfl
  | cons slot rest ih =>
    intro w
    rw [List.foldl_cons, ih, runSlot_connections]

theorem deliver_connections (tr : String → String) (w : HelpWidget) (s : Sender)
    (arg : Bool) : (w.deliver tr s arg).connections = w.connections := by
  unfold HelpWidget.deliver
  exact foldl_runSlot_connections tr arg _ w

theorem runSlot_backEnabled (tr : String → String) (arg : Bool) (w : HelpWidget)
    (slot : Slot) :
    (w.runSlot tr arg slot).m_backAction.enabled =
      if slot = Slot.backAction_setEnabled then arg else w.m_backAction.enabled := by
  cases slot <;>
    simp [HelpWidget.runSlot, updateWindowTitle_eq, HelpWidget.updateBackMenu,
      HelpWidget.updateForwardMenu, HelpWidget.helpModeButtonClicked, close_eq]
  split <;> rfl

theorem runSlot_forwardEnabled (tr : String → String) (arg : Bool) (w : HelpWidget)
    (slot : Slot) :
    (w.runSlot tr arg slot).m_forwardAction.enabled =
      if slot = Slot.forwardAction_setEnabled then arg else w.m_forwardAction.enabled := by
  cases slot <;>
    simp [HelpWidget.runSlot, updateWindowTitle_eq, HelpWidget.updateBackMenu,
      HelpWidget.updateForwardMenu, HelpWidget.helpModeButtonClicked, close_eq]
  split <;> rfl

theorem foldl_runSlot_backEnabled (tr : String → String) (arg : Bool) (slots : List Slot) :
    ∀ w : HelpWidget, (slots.foldl (HelpWidget.runSlot tr arg) w).m_backAction.enabled =
      if Slot.backAction_setEnabled ∈ slots then arg else w.m_backAction.enabled := by
  induction slots with
  | nil => intro w; simp
  | cons slot rest ih =>
    intro w
    rw [List.foldl_cons, ih, runSlot_backEnabled]
    by_cases h1 : Slot.backAction_setEnabled ∈ rest <;>
      by_cases h2 : slot = Slot.backAction_setEnabled <;> simp [h1, h2]
    rw [if_neg (fun h3 => h2 h3.symm)]

theorem foldl_runSlot_forwardEnabled (tr : String → String) (arg : Bool) (slots : List Slot) :
    ∀ w : HelpWidget, (slots.foldl (HelpWidget.runSlot tr arg) w).m_forwardAction.enabled =
      if Slot.forwardAction_setEnabled ∈ slots then arg else w.m_forwardAction.enabled := by
  induction slots with
  | nil => intro w; simp
  | cons slot rest ih =>
    intro w
    rw [List.foldl_cons, ih, runSlot_forwardEnabled]
    by_cases h1 : Slot.forwardAction_setEnabled ∈ rest <;>
      by_cases h2 : slot = Slot.forwardAction_setEnabled <;> simp [h1, h2]
    rw [if_neg (fun h3 => h2 h3.symm)]


theorem deliver_backEnabled (σ : World) (context : Context) (style : WidgetStyle)
    (viewer : HelpViewer) (tr : String → String) (w : HelpWidget)
    (hw : w.connections = (HelpWidget.new σ context style viewer).1.connections)
    (s : Sender) (arg : Bool) :
    (w.deliver tr s arg).m_backAction.enabled =
      if s = Sender.viewer_backwardAvailable then arg else w.m_backAction.enabled := by
  unfold HelpWidget.deliver
  rw [foldl_runSlot_backEnabled, hw, new_slots]
  cases s <;> simp

theorem deliver_forwardEnabled (σ : World) (context : Context) (style : WidgetStyle)
    (viewer : HelpViewer) (tr : String → String) (w : HelpWidget)
    (hw : w.connections = (HelpWidget.new σ context style viewer).1.connections)
    (s : Sender) (arg : Bool) :
    (w.deliver tr s arg).m_forwardAction.enabled =
      if s = Sender.viewer_forwardAvailable then arg else w.m_forwardAction.enabled := by
  unfold HelpWidget.deliver
  rw [foldl_runSlot_forwardEnabled, hw, new_slots]
  cases s <;> simp

theorem deliverAll_enabled (σ : World) (context : Context) (style : WidgetStyle)
    (viewer : HelpViewer) (tr : String → String) (events : List (Sender × Bool)) :
    ∀ w : HelpWidget, w.connections = (HelpWidget.new σ context style viewer).1.connections →
      (w.deliverAll tr events).m_backAction.enabled =
        lastReported Sender.viewer_backwardAvailable w.m_backAction.enabled events ∧
      (w.deliverAll tr events).m_forwardAction.enabled =
        lastReported Sender.viewer_forwardAvailable w.m_forwardAction.enabled events := by
  induction events with
  | nil => intro w _; exact ⟨rfl, rfl⟩
  | cons e rest ih =>
    intro w hw
    have hc : (w.deliver tr e.1 e.2).connections
        = (HelpWidget.new σ context style viewer).1.connections := by
      rw [deliver_connections, hw]
    have h := ih (w.deliver tr e.1 e.2) hc
    rw [deliver_backEnabled σ context style viewer tr w hw,
      deliver_forwardEnabled σ context style viewer tr w hw] at h
    simpa [HelpWidget.deliverAll, lastReported] using h

theorem new_enabled (σ : World) (context : Context) (style : WidgetStyle)
    (viewer : HelpViewer) :
    (HelpWidget.new σ context style viewer).1.m_backAction.enabled = viewer.isBackwardAvailable ∧
    (HelpWidget.new σ context style viewer).1.m_forwardAction.enabled
      = viewer.isForwardAvailable := by
  cases style <;> cases h : σ.advancedMenu <;>
    simp [HelpWidget.new, HelpWidget.constructCommon, HelpWidget.constructFontActions,
      HelpWidget.constructStyle, World.alloc, ActionManager.registerAction,
      Command.setDefaultKeySequence, ICore.addContextObject, qtcCheck, h,
      ActionContainer.addAction, ICore.registerWindow, updateWindowTitle_eq]

theorem new_style (σ : World) (context : Context) (style : WidgetStyle)
    (viewer : HelpViewer) :
    (HelpWidget.new σ context style viewer).1.m_style = style := by
  cases style <;> cases h : σ.advancedMenu <;>
    simp [HelpWidget.new, HelpWidget.constructCommon, HelpWidget.constructFontActions,
      HelpWidget.constructStyle, World.alloc, ActionManager.registerAction,
      Command.setDefaultKeySequence, ICore.addContextObject, qtcCheck, h,
      ActionContainer.addAction, ICore.registerWindow, updateWindowTitle_eq]

theorem new_window_state (σ : World) (context : Context) (style : WidgetStyle)
    (viewer : HelpViewer) :
    (HelpWidget.new σ context style viewer).1.m_style = style ∧
    (HelpWidget.new σ context style viewer).1.deleteOnClose
      = decide (style = WidgetStyle.ExternalWindow) ∧
    (HelpWidget.new σ context style viewer).1.deleteLaterPosted = false := by
  cases style <;> cases h : σ.advancedMenu <;>
    simp [HelpWidget.new, HelpWidget.constructCommon, HelpWidget.constructFontActions,
      HelpWidget.constructStyle, World.alloc, ActionManager.registerAction,
      Command.setDefaultKeySequence, ICore.addContextObject, qtcCheck, h,
      ActionContainer.addAction, ICore.registerWindow, updateWindowTitle_eq]

/-! ## The window title -/

/-- C1 fails as stated: with the German translation installed, `updateWindowTitle` on
the external window of the demo host, whose viewer shows the page "Qt", does not set
the title to "Help - " followed by the viewer's title. -/
theorem updateWindowTitle_translated_title :
    ¬ (((demoWidget WidgetStyle.ExternalWindow).m_viewer.title = "" →
          ((demoWidget WidgetStyle.ExternalWindow).updateWindowTitle demoTranslation).windowTitle
            = "Help") ∧
        ((demoWidget WidgetStyle.ExternalWindow).m_viewer.title ≠ "" →
          ((demoWidget WidgetStyle.ExternalWindow).updateWindowTitle demoTranslation).windowTitle
            = "Help - " ++ (demoWidget WidgetStyle.ExternalWindow).m_viewer.title)) := by
  decide

/-- C1, amended: under the installed translation `tr`, `updateWindowTitle` sets the
window title to `tr("Help")` for an empty viewer title and to `tr("Help - %1")` with its
place marker replaced by the viewer's title otherwise; when `tr` returns these two
labels unchanged the title is "Help", respectively "Help - " followed by exactly the
viewer's title; the title the window had before the call has no influence on the
result. -/
theorem updateWindowTitle_windowTitle (tr : String → String) (w : HelpWidget) :
    (w.m_viewer.title = "" → (w.updateWindowTitle tr).windowTitle = tr "Help") ∧
    (w.m_viewer.title ≠ "" →
      (w.updateWindowTitle tr).windowTitle = QString.arg (tr "Help - %1") w.m_viewer.title) ∧
    (tr "Help" = "Help" → w.m_viewer.title = "" →
      (w.updateWindowTitle tr).windowTitle = "Help") ∧
    (tr "Help - %1" = "Help - %1" → w.m_viewer.title ≠ "" →
      (w.updateWindowTitle tr).windowTitle = "Help - " ++ w.m_viewer.title) ∧
    (∀ old : String,
      (HelpWidget.updateWindowTitle tr { w with windowTitle := old }).windowTitle
        = (w.updateWindowTitle tr).windowTitle) := by
  have hempty : w.m_viewer.title = "" → (w.updateWindowTitle tr).windowTitle = tr "Help" := by
    intro h
    have he : w.m_viewer.title.isEmpty = true := (String.isEmpty_iff _).2 h
    simp [updateWindowTitle_eq, he]
  have hfull : w.m_viewer.title ≠ "" →
      (w.updateWindowTitle tr).windowTitle
        = QString.arg (tr "Help - %1") w.m_viewer.title := by
    intro h
    have he : ¬ (w.m_viewer.title.isEmpty = true) := fun hh => h ((String.isEmpty_iff _).1 hh)
    simp [updateWindowTitle_eq, he]
  refine ⟨hempty, hfull, ?_, ?_, ?_⟩
  · intro htr h
    rw [hempty h, htr]
  · intro htr h
    rw [hfull h, htr, QString.arg_help]
  · intro old
    simp [updateWindowTitle_eq]

/-- Witness for C1: without translation the external window of the demo host, whose
viewer shows the page "Qt", gets the title "Help - Qt". -/
theorem updateWindowTitle_windowTitle_witness :
    (fun s : String => s) "Help - %1" = "Help - %1" ∧
    (demoWidget WidgetStyle.ExternalWindow).m_viewer.title ≠ "" ∧
    ((demoWidget WidgetStyle.ExternalWindow).updateWindowTitle (fun s => s)).windowTitle
      = "Help - Qt" :=
  ⟨rfl, by decide,
    (updateWindowTitle_windowTitle (fun s => s)
      (demoWidget WidgetStyle.ExternalWindow)).2.2.2.1 rfl (by decide)⟩

/-! ## The help-mode button -/

/-- C2: for every widget (so for each of the three styles) and every source reported
by its viewer, `helpModeButtonClicked` emits `openHelpMode` exactly once, carrying
that source; and on a constructed widget of any style the trigger of the help-mode
action runs exactly this slot. -/
theorem helpModeButtonClicked_emits_openHelpMode_once :
    (∀ w : HelpWidget,
      (newSignals w w.helpModeButtonClicked).filter Signal.isOpenHelpMode
        = [Signal.openHelpMode w.m_viewer.source]) ∧
    (∀ (σ : World) (context : Context) (style : WidgetStyle) (viewer : HelpViewer)
        (arg : Bool),
      (HelpWidget.new σ context style viewer).1.deliver σ.tr Sender.switchToHelp_triggered arg
        = (HelpWidget.new σ context style viewer).1.helpModeButtonClicked) := by
  constructor
  · intro w
    unfold newSignals
    rw [helpModeButtonClicked_emitted, List.drop_left]
    by_cases h : w.m_style = WidgetStyle.ExternalWindow <;> simp [h, Signal.isOpenHelpMode]
  · intro σ context style viewer arg
    unfold HelpWidget.deliver
    rw [new_slots]
    rfl

/-- C3: `helpModeButtonClicked` closes the widget exactly when its style is
`ExternalWindow`: the close event is delivered (its `aboutToClose` is among the new
signals) iff the style is `ExternalWindow`; for that style the widget ends hidden and,
with `WA_DeleteOnClose` set, scheduled for deletion, and for every other style its
visibility and deletion state are left as they were. The constructor stores the style
it is given and sets `WA_DeleteOnClose` for external windows only, so a constructed
and shown widget is hidden, and scheduled for deletion, iff it was constructed with
style `ExternalWindow`. -/
theorem helpModeButtonClicked_closes_iff_external :
    (∀ w : HelpWidget,
      (Signal.aboutToClose ∈ newSignals w w.helpModeButtonClicked
        ↔ w.m_style = WidgetStyle.ExternalWindow) ∧
      w.helpModeButtonClicked.visible
        = (if w.m_style = WidgetStyle.ExternalWindow then false else w.visible) ∧
      w.helpModeButtonClicked.deleteLaterPosted
        = (if w.m_style = WidgetStyle.ExternalWindow
            then (w.deleteOnClose || w.deleteLaterPosted) else w.deleteLaterPosted) ∧
      w.helpModeButtonClicked.deleteOnClose
        = (if w.m_style = WidgetStyle.ExternalWindow then false else w.deleteOnClose)) ∧
    (∀ (σ : World) (context : Context) (style : WidgetStyle) (viewer : HelpViewer),
      (HelpWidget.new σ context style viewer).1.m_style = style ∧
      ((HelpWidget.new σ context style viewer).1.show.helpModeButtonClicked.visible = false
        ↔ style = WidgetStyle.ExternalWindow) ∧
      ((HelpWidget.new σ context style viewer).1.show.helpModeButtonClicked.deleteLaterPosted
          = true
        ↔ style = WidgetStyle.ExternalWindow)) := by
  have hgen : ∀ w : HelpWidget,
      (Signal.aboutToClose ∈ newSignals w w.helpModeButtonClicked
        ↔ w.m_style = WidgetStyle.ExternalWindow) ∧
      w.helpModeButtonClicked.visible
        = (if w.m_style = WidgetStyle.ExternalWindow then false else w.visible) ∧
      w.helpModeButtonClicked.deleteLaterPosted
        = (if w.m_style = WidgetStyle.ExternalWindow
            then (w.deleteOnClose || w.deleteLaterPosted) else w.deleteLaterPosted) ∧
      w.helpModeButtonClicked.deleteOnClose
        = (if w.m_style = WidgetStyle.ExternalWindow then false else w.deleteOnClose) := by
    intro w
    refine ⟨?_, ?_, ?_, ?_⟩
    · unfold newSignals
      rw [helpModeButtonClicked_emitted, List.drop_left]
      by_cases h : w.m_style = WidgetStyle.ExternalWindow <;> simp [h]
    · unfold HelpWidget.helpModeButtonClicked
      by_cases h : w.m_style = WidgetStyle.ExternalWindow <;> simp [h, close_eq]
    · unfold HelpWidget.helpModeButtonClicked
      by_cases h : w.m_style = WidgetStyle.ExternalWindow <;> simp [h, close_eq]
    · unfold HelpWidget.helpModeButtonClicked
      by_cases h : w.m_style = WidgetStyle.ExternalWindow <;> simp [h, close_eq]
  refine ⟨hgen, ?_⟩
  intro σ context style viewer
  obtain ⟨hs, hd, hp⟩ := new_window_state σ context style viewer
  generalize HelpWidget.new σ context style viewer = r at hs hd hp ⊢
  obtain ⟨-, gv, gp, -⟩ := hgen r.1.show
  have e1 : r.1.show.m_style = style := hs
  have e2 : r.1.show.visible = true := rfl
  have e3 : r.1.show.deleteOnClose = decide (style = WidgetStyle.ExternalWindow) := hd
  have e4 : r.1.show.deleteLaterPosted = false := hp
  rw [gv, gp, e1, e2, e3, e4]
  refine ⟨hs, ?_, ?_⟩
  · by_cases h : style = WidgetStyle.ExternalWindow <;> simp [h]
  · by_cases h : style = WidgetStyle.ExternalWindow <;> simp [h]

/-- C10: the signals produced by `helpModeButtonClicked` are, in order,
`openHelpMode(source)` and then `aboutToClose` for an external window, and
`openHelpMode(source)` alone for every other style. -/
theorem helpModeButtonClicked_signal_order (w : HelpWidget) :
    newSignals w w.helpModeButtonClicked =
      if w.m_style = WidgetStyle.ExternalWindow
      then [Signal.openHelpMode w.m_viewer.source, Signal.aboutToClose]
      else [Signal.openHelpMode w.m_viewer.source] := by
  unfold newSignals
  rw [helpModeButtonClicked_emitted, List.drop_left]
  by_cases h : w.m_style = WidgetStyle.ExternalWindow <;> simp [h]

/-! ## Back and forward -/

/-- C4: on a constructed widget, right after construction and after any sequence of
signal emissions reaching it, the enabled flag of the back action is the flag of the
last `backwardAvailable` emission (the viewer's `isBackwardAvailable` if there was
none), and the enabled flag of the forward action is the flag of the last
`forwardAvailable` emission (the viewer's `isForwardAvailable` if there was none). -/
theorem enabled_flags_track_availability (σ : World) (context : Context)
    (style : WidgetStyle) (viewer : HelpViewer) (events : List (Sender × Bool)) :
    ((HelpWidget.new σ context style viewer).1.deliverAll σ.tr events).m_backAction.enabled =
      lastReported Sender.viewer_backwardAvailable viewer.isBackwardAvailable events ∧
    ((HelpWidget.new σ context style viewer).1.deliverAll σ.tr events).m_forwardAction.enabled =
      lastReported Sender.viewer_forwardAvailable viewer.isForwardAvailable events := by
  have h := deliverAll_enabled σ context style viewer σ.tr events
    (HelpWidget.new σ context style viewer).1 rfl
  rw [(new_enabled σ context style viewer).1, (new_enabled σ context style viewer).2] at h
  exact h

/-- C5: `updateBackMenu` leaves in the back menu exactly what the viewer's
`addBackHistoryItems` adds to an empty menu, whatever the menu held before, and does
not touch the forward menu or the viewer, so a second call changes nothing;
`updateForwardMenu` does the same for the forward menu. On a constructed widget the
menus' `aboutToShow` signals run these slots. -/
theorem update_history_menus (w : HelpWidget) :
    (w.updateBackMenu.m_backMenu = w.m_viewer.addBackHistoryItems [] ∧
      w.updateBackMenu.m_forwardMenu = w.m_forwardMenu ∧
      w.updateBackMenu.updateBackMenu.m_backMenu = w.updateBackMenu.m_backMenu) ∧
    (w.updateForwardMenu.m_forwardMenu = w.m_viewer.addForwardHistoryItems [] ∧
      w.updateForwardMenu.m_backMenu = w.m_backMenu ∧
      w.updateForwardMenu.updateForwardMenu.m_forwardMenu = w.updateForwardMenu.m_forwardMenu) ∧
    (∀ (σ : World) (context : Context) (style : WidgetStyle) (viewer : HelpViewer)
        (arg : Bool),
      (HelpWidget.new σ context style viewer).1.deliver σ.tr Sender.backMenu_aboutToShow arg
        = (HelpWidget.new σ context style viewer).1.updateBackMenu ∧
      (HelpWidget.new σ context style viewer).1.deliver σ.tr Sender.forwardMenu_aboutToShow arg
        = (HelpWidget.new σ context style viewer).1.updateForwardMenu) := by
  refine ⟨⟨rfl, rfl, rfl⟩, ⟨rfl, rfl, rfl⟩, ?_⟩
  intro σ context style viewer arg
  constructor
  · unfold HelpWidget.deliver
    rw [new_slots]
    rfl
  · unfold HelpWidget.deliver
    rw [new_slots]
    rfl

/-! ## The signals of the widget -/

/-- C7 fails as stated: `closeEvent` on the mode widget of the demo host emits a
signal that is neither `openHelpMode` nor `closeButtonClicked`. -/
theorem closeEvent_emits_third_signal :
    ¬ (∀ sig ∈ newSignals (demoWidget WidgetStyle.ModeWidget)
          (demoWidget WidgetStyle.ModeWidget).closeEvent,
        sig.isOpenHelpMode = true ∨ sig = Signal.closeButtonClicked) := by
  decide

/-- C7, amended: the widget emits signals of three kinds. `helpModeButtonClicked`
emits only `openHelpMode` with the viewer's source and `aboutToClose`; the trigger of
the close button of a constructed side bar widget emits exactly `closeButtonClicked`;
`closeEvent` emits exactly `aboutToClose`. -/
theorem emitted_signals_three_kinds :
    (∀ w : HelpWidget, ∀ sig ∈ newSignals w w.helpModeButtonClicked,
      sig = Signal.openHelpMode w.m_viewer.source ∨ sig = Signal.aboutToClose) ∧
    (∀ (σ : World) (context : Context) (viewer : HelpViewer) (arg : Bool),
      newSignals (HelpWidget.new σ context WidgetStyle.SideBarWidget viewer).1
        ((HelpWidget.new σ context WidgetStyle.SideBarWidget viewer).1.deliver σ.tr
          Sender.close_triggered arg) = [Signal.closeButtonClicked]) ∧
    (∀ w : HelpWidget, newSignals w w.closeEvent = [Signal.aboutToClose]) := by
  refine ⟨?_, ?_, ?_⟩
  · intro w sig hsig
    unfold newSignals at hsig
    rw [helpModeButtonClicked_emitted, List.drop_left] at hsig
    by_cases h : w.m_style = WidgetStyle.ExternalWindow <;> simp [h] at hsig
    · exact hsig
    · exact Or.inl hsig
  · intro σ context viewer arg
    unfold HelpWidget.deliver
    rw [new_slots]
    simp [newSignals, HelpWidget.runSlot]
  · intro w
    simp [newSignals, HelpWidget.closeEvent]


/-! ## Registration with the host -/

theorem new_calls (σ : World) (context : Context) (style : WidgetStyle)
    (viewer : HelpViewer) :
    (HelpWidget.new σ context style viewer).2.calls = σ.calls ++
      ([HostCall.registerAction (σ.nextObject + 1) CommandId.CONTEXT_HELP context,
        HostCall.registerAction (σ.nextObject + 2) CommandId.HELP_PREVIOUS context,
        HostCall.setDefaultKeySequence CommandId.HELP_PREVIOUS StandardKey.Back,
        HostCall.registerAction (σ.nextObject + 3) CommandId.HELP_NEXT context,
        HostCall.setDefaultKeySequence CommandId.HELP_NEXT StandardKey.Forward,
        HostCall.addContextObject (σ.nextObject + 5),
        HostCall.registerAction (σ.nextObject + 6) CommandId.COPY context]
      ++ (if σ.advancedMenu.isSome then
           [HostCall.registerAction (σ.nextObject + 7) CommandId.INCREASE_FONT_SIZE context,
            HostCall.containerAddAction CommandId.INCREASE_FONT_SIZE,
            HostCall.registerAction (σ.nextObject + 8) CommandId.DECREASE_FONT_SIZE context,
            HostCall.containerAddAction CommandId.DECREASE_FONT_SIZE,
            HostCall.registerAction (σ.nextObject + 9) CommandId.RESET_FONT_SIZE context,
            HostCall.containerAddAction CommandId.RESET_FONT_SIZE]
          else [HostCall.qtcCheckFailed "advancedMenu"])
      ++ (if style = WidgetStyle.ExternalWindow then
           [HostCall.registerWindow σ.nextObject
             [Id.withSuffix "Help.Window." (preIncrement σ.windowId)]]
          else [])) := by
  cases style <;> cases h : σ.advancedMenu <;>
    simp [HelpWidget.new, HelpWidget.constructCommon, HelpWidget.constructFontActions,
      HelpWidget.constructStyle, World.alloc, ActionManager.registerAction,
      Command.setDefaultKeySequence, ICore.addContextObject, qtcCheck, h,
      ActionContainer.addAction, ICore.registerWindow, updateWindowTitle_eq]

theorem new_members (σ : World) (context : Context) (style : WidgetStyle)
    (viewer : HelpViewer) :
    (HelpWidget.new σ context style viewer).1.m_switchToHelp.ptr = σ.nextObject + 1 ∧
    (HelpWidget.new σ context style viewer).1.m_backAction.ptr = σ.nextObject + 2 ∧
    (HelpWidget.new σ context style viewer).1.m_forwardAction.ptr = σ.nextObject + 3 ∧
    (HelpWidget.new σ context style viewer).1.m_context.ptr = σ.nextObject + 5 ∧
    (HelpWidget.new σ context style viewer).1.m_copy.ptr = σ.nextObject + 6 ∧
    (HelpWidget.new σ context style viewer).1.m_scaleUp.map QAction.ptr =
      (if σ.advancedMenu.isSome then some (σ.nextObject + 7) else none) ∧
    (HelpWidget.new σ context style viewer).1.m_scaleDown.map QAction.ptr =
      (if σ.advancedMenu.isSome then some (σ.nextObject + 8) else none) ∧
    (HelpWidget.new σ context style viewer).1.m_resetScale.map QAction.ptr =
      (if σ.advancedMenu.isSome then some (σ.nextObject + 9) else none) := by
  cases style <;> cases h : σ.advancedMenu <;>
    simp [HelpWidget.new, HelpWidget.constructCommon, HelpWidget.constructFontActions,
      HelpWidget.constructStyle, World.alloc, ActionManager.registerAction,
      Command.setDefaultKeySequence, ICore.addContextObject, qtcCheck, h,
      ActionContainer.addAction, ICore.registerWindow, updateWindowTitle_eq]

theorem new_world (σ : World) (context : Context) (style : WidgetStyle)
    (viewer : HelpViewer) :
    (HelpWidget.new σ context style viewer).2.registrations = σ.registrations ++
      ([{ action := σ.nextObject + 1, id := CommandId.CONTEXT_HELP, context := context },
        { action := σ.nextObject + 2, id := CommandId.HELP_PREVIOUS, context := context },
        { action := σ.nextObject + 3, id := CommandId.HELP_NEXT, context := context },
        { action := σ.nextObject + 6, id := CommandId.COPY, context := context }]
      ++ (if σ.advancedMenu.isSome then
           [{ action := σ.nextObject + 7, id := CommandId.INCREASE_FONT_SIZE, context := context },
            { action := σ.nextObject + 8, id := CommandId.DECREASE_FONT_SIZE, context := context },
            { action := σ.nextObject + 9, id := CommandId.RESET_FONT_SIZE, context := context }]
          else [])) ∧
    (HelpWidget.new σ context style viewer).2.contextObjects = σ.contextObjects ++
      [{ ptr := σ.nextObject + 5, context := context, widget := σ.nextObject + 4 }] ∧
    (HelpWidget.new σ context style viewer).2.advancedMenu =
      σ.advancedMenu.map (fun m => m ++ [CommandId.INCREASE_FONT_SIZE,
        CommandId.DECREASE_FONT_SIZE, CommandId.RESET_FONT_SIZE]) ∧
    (HelpWidget.new σ context style viewer).2.windowId =
      (if style = WidgetStyle.ExternalWindow then preIncrement σ.windowId else σ.windowId) := by
  cases style <;> cases h : σ.advancedMenu <;>
    simp [HelpWidget.new, HelpWidget.constructCommon, HelpWidget.constructFontActions,
      HelpWidget.constructStyle, World.alloc, ActionManager.registerAction,
      Command.setDefaultKeySequence, ICore.addContextObject, qtcCheck, h,
      ActionContainer.addAction, ICore.registerWindow, updateWindowTitle_eq]

/-- C6: without the advanced edit menu the constructor registers exactly the
help-mode, back, forward and copy actions and leaves `m_scaleUp`, `m_scaleDown` and
`m_resetScale` null; with the menu it registers these four and the three font-scaling
actions, which it stores in the members and adds to the menu in this order. -/
theorem font_scaling_follows_advanced_menu (σ : World) (context : Context)
    (style : WidgetStyle) (viewer : HelpViewer) :
    match σ.advancedMenu with
    | none =>
      registeredBetween σ (HelpWidget.new σ context style viewer).2 =
        [((HelpWidget.new σ context style viewer).1.m_switchToHelp.ptr, CommandId.CONTEXT_HELP),
         ((HelpWidget.new σ context style viewer).1.m_backAction.ptr, CommandId.HELP_PREVIOUS),
         ((HelpWidget.new σ context style viewer).1.m_forwardAction.ptr, CommandId.HELP_NEXT),
         ((HelpWidget.new σ context style viewer).1.m_copy.ptr, CommandId.COPY)] ∧
      (HelpWidget.new σ context style viewer).1.m_scaleUp = none ∧
      (HelpWidget.new σ context style viewer).1.m_scaleDown = none ∧
      (HelpWidget.new σ context style viewer).1.m_resetScale = none ∧
      (HelpWidget.new σ context style viewer).2.advancedMenu = none
    | some menu =>
      ∃ up down reset : QAction,
        (HelpWidget.new σ context style viewer).1.m_scaleUp = some up ∧
        (HelpWidget.new σ context style viewer).1.m_scaleDown = some down ∧
        (HelpWidget.new σ context style viewer).1.m_resetScale = some reset ∧
        registeredBetween σ (HelpWidget.new σ context style viewer).2 =
          [((HelpWidget.new σ context style viewer).1.m_switchToHelp.ptr, CommandId.CONTEXT_HELP),
           ((HelpWidget.new σ context style viewer).1.m_backAction.ptr, CommandId.HELP_PREVIOUS),
           ((HelpWidget.new σ context style viewer).1.m_forwardAction.ptr, CommandId.HELP_NEXT),
           ((HelpWidget.new σ context style viewer).1.m_copy.ptr, CommandId.COPY),
           (up.ptr, CommandId.INCREASE_FONT_SIZE),
           (down.ptr, CommandId.DECREASE_FONT_SIZE),
           (reset.ptr, CommandId.RESET_FONT_SIZE)] ∧
        (HelpWidget.new σ context style viewer).2.advancedMenu =
          some (menu ++ [CommandId.INCREASE_FONT_SIZE, CommandId.DECREASE_FONT_SIZE,
            CommandId.RESET_FONT_SIZE]) := by
  have hc := new_calls σ context style viewer
  have hm := new_members σ context style viewer
  have hw := new_world σ context style viewer
  obtain ⟨h1, h2, h3, -, h6, h7, h8, h9⟩ := hm
  obtain ⟨-, -, ha, -⟩ := hw
  cases h : σ.advancedMenu with
  | none =>
    simp only [h, Option.isSome_none, Bool.false_eq_true, if_false, Option.map_eq_none',
      Option.map_none'] at hc h7 h8 h9 ha
    refine ⟨?_, h7, h8, h9, ha⟩
    unfold registeredBetween newCalls
    rw [hc, List.drop_left, h1, h2, h3, h6]
    cases style <;> simp [HostCall.registered]
  | some menu =>
    simp only [h, Option.isSome_some, if_true, Option.map_eq_some', Option.map_some'] at hc h7 h8 h9 ha
    obtain ⟨up, hup, hup2⟩ := h7
    obtain ⟨down, hdown, hdown2⟩ := h8
    obtain ⟨reset, hreset, hreset2⟩ := h9
    refine ⟨up, down, reset, hup, hdown, hreset, ?_, ha⟩
    unfold registeredBetween newCalls
    rw [hc, List.drop_left, h1, h2, h3, h6, hup2, hdown2, hreset2]
    cases style <;> simp [HostCall.registered]


theorem filter_fresh_registration (l : List Registration) (n k : Nat) (id : CommandId)
    (hl : ∀ r ∈ l, r.action < n) (hk : n ≤ k) :
    l.filter (fun r => ¬ (r.action = k ∧ r.id = id)) = l := by
  apply List.filter_eq_self.2
  intro r hr
  have hne : r.action ≠ k := Nat.ne_of_lt (Nat.lt_of_lt_of_le (hl r hr) hk)
  simp [hne]

theorem filter_fresh_context (l : List IContext) (n k : Nat)
    (hl : ∀ c ∈ l, c.ptr < n) (hk : n ≤ k) :
    l.filter (fun c => ¬ (c.ptr = k)) = l := by
  apply List.filter_eq_self.2
  intro c hc
  have hne : c.ptr ≠ k := Nat.ne_of_lt (Nat.lt_of_lt_of_le (hl c hc) hk)
  simp [hne]

theorem destroy_calls (w : HelpWidget) (σ : World) :
    (w.destroy σ).calls = σ.calls ++
      ([HostCall.removeContextObject w.m_context.ptr,
        HostCall.unregisterAction w.m_copy.ptr CommandId.COPY,
        HostCall.unregisterAction w.m_switchToHelp.ptr CommandId.CONTEXT_HELP,
        HostCall.unregisterAction w.m_forwardAction.ptr CommandId.HELP_NEXT,
        HostCall.unregisterAction w.m_backAction.ptr CommandId.HELP_PREVIOUS]
      ++ (w.m_scaleUp.toList.map
            (fun a => HostCall.unregisterAction a.ptr CommandId.INCREASE_FONT_SIZE))
      ++ (w.m_scaleDown.toList.map
            (fun a => HostCall.unregisterAction a.ptr CommandId.DECREASE_FONT_SIZE))
      ++ (w.m_resetScale.toList.map
            (fun a => HostCall.unregisterAction a.ptr CommandId.RESET_FONT_SIZE))) := by
  cases h1 : w.m_scaleUp <;> cases h2 : w.m_scaleDown <;> cases h3 : w.m_resetScale <;>
    simp [HelpWidget.destroy, unregisterIfSet, ActionManager.unregisterAction,
      ICore.removeContextObject, h1, h2, h3]

theorem destroy_contextObjects (w : HelpWidget) (σ : World) :
    (w.destroy σ).contextObjects =
      σ.contextObjects.filter (fun o => ¬ (o.ptr = w.m_context.ptr)) := by
  cases h1 : w.m_scaleUp <;> cases h2 : w.m_scaleDown <;> cases h3 : w.m_resetScale <;>
    simp [HelpWidget.destroy, unregisterIfSet, ActionManager.unregisterAction,
      ICore.removeContextObject, h1, h2, h3]

theorem unregisterAction_registrations (σ : World) (a : Ptr) (id : CommandId) :
    (ActionManager.unregisterAction σ a id).registrations =
      σ.registrations.filter (fun r => ¬ (r.action = a ∧ r.id = id)) := rfl

theorem unregisterIfSet_registrations (σ : World) (a : Option QAction) (id : CommandId) :
    (unregisterIfSet σ a id).registrations =
      σ.registrations.filter (fun r => ¬ (r.action, r.id) ∈ a.toList.map (fun a => (a.ptr, id))) := by
  cases a with
  | none => simp [unregisterIfSet]
  | some a => simp [unregisterIfSet, ActionManager.unregisterAction]

theorem destroy_registrations (w : HelpWidget) (σ : World) :
    (w.destroy σ).registrations =
      σ.registrations.filter (fun r =>
        ¬ (r.action, r.id) ∈
          ([(w.m_copy.ptr, CommandId.COPY),
            (w.m_switchToHelp.ptr, CommandId.CONTEXT_HELP),
            (w.m_forwardAction.ptr, CommandId.HELP_NEXT),
            (w.m_backAction.ptr, CommandId.HELP_PREVIOUS)]
          ++ w.m_scaleUp.toList.map (fun a => (a.ptr, CommandId.INCREASE_FONT_SIZE))
          ++ w.m_scaleDown.toList.map (fun a => (a.ptr, CommandId.DECREASE_FONT_SIZE))
          ++ w.m_resetScale.toList.map (fun a => (a.ptr, CommandId.RESET_FONT_SIZE)))) := by
  unfold HelpWidget.destroy
  simp only [unregisterIfSet_registrations, unregisterAction_registrations, List.filter_filter]
  have : (ICore.removeContextObject σ w.m_context).registrations = σ.registrations := rfl
  rw [this]
  apply List.filter_congr
  intro x _
  rw [Bool.eq_iff_iff]
  simp only [Bool.and_eq_true, decide_eq_true_eq, List.mem_append, List.mem_cons, Prod.mk.injEq,
    List.mem_singleton, not_or, List.not_mem_nil, or_false]
  tauto

/-- C8: in a host that satisfies the allocator invariant, the (action, command) pairs
unregistered by the destructor are those registered by the constructor, the context
object removed is the one added, and constructing then destroying a widget leaves the
registrations of the action manager and the context objects of the host as before. -/
theorem construct_destroy_balanced (σ : World) (context : Context) (style : WidgetStyle)
    (viewer : HelpViewer) (hfresh : σ.Fresh) :
    (∀ p : Ptr × CommandId,
      p ∈ unregisteredBetween (HelpWidget.new σ context style viewer).2
            ((HelpWidget.new σ context style viewer).1.destroy
              (HelpWidget.new σ context style viewer).2)
        ↔ p ∈ registeredBetween σ (HelpWidget.new σ context style viewer).2) ∧
    ((newCalls σ (HelpWidget.new σ context style viewer).2).filterMap HostCall.addedContext
        = [(HelpWidget.new σ context style viewer).1.m_context.ptr] ∧
      (newCalls (HelpWidget.new σ context style viewer).2
          ((HelpWidget.new σ context style viewer).1.destroy
            (HelpWidget.new σ context style viewer).2)).filterMap HostCall.removedContext
        = [(HelpWidget.new σ context style viewer).1.m_context.ptr]) ∧
    ((HelpWidget.new σ context style viewer).1.destroy
        (HelpWidget.new σ context style viewer).2).registrations = σ.registrations ∧
    ((HelpWidget.new σ context style viewer).1.destroy
        (HelpWidget.new σ context style viewer).2).contextObjects = σ.contextObjects := by
  have hc := new_calls σ context style viewer
  obtain ⟨h1, h2, h3, h5, h6, h7, h8, h9⟩ := new_members σ context style viewer
  obtain ⟨hreg, hctx, -, -⟩ := new_world σ context style viewer
  generalize HelpWidget.new σ context style viewer = r at *
  have hd := destroy_calls r.1 r.2
  have hdc := destroy_contextObjects r.1 r.2
  have hdr := destroy_registrations r.1 r.2
  have hadd : (newCalls σ r.2).filterMap HostCall.addedContext = [r.1.m_context.ptr] := by
    unfold newCalls
    rw [hc, List.drop_left, h5]
    cases style <;> cases h : σ.advancedMenu <;> simp [HostCall.addedContext]
  have hrem : (newCalls r.2 (r.1.destroy r.2)).filterMap HostCall.removedContext
      = [r.1.m_context.ptr] := by
    unfold newCalls
    rw [hd, List.drop_left]
    cases r.1.m_scaleUp <;> cases r.1.m_scaleDown <;> cases r.1.m_resetScale <;>
      simp [HostCall.removedContext]
  have hctx2 : (r.1.destroy r.2).contextObjects = σ.contextObjects := by
    rw [hdc, hctx, h5, List.filter_append,
      filter_fresh_context _ _ _ hfresh.2 (Nat.le_add_right _ 5)]
    simp
  refine ⟨?_, ⟨hadd, hrem⟩, ?_, hctx2⟩
  · intro p
    unfold unregisteredBetween registeredBetween newCalls
    rw [hd, List.drop_left, hc, List.drop_left, h1, h2, h3, h5, h6]
    cases h : σ.advancedMenu with
    | none =>
      simp only [h, Option.isSome_none, Bool.false_eq_true, if_false, Option.map_eq_none'] at h7 h8 h9
      rw [h7, h8, h9]
      cases style <;> simp [HostCall.registered, HostCall.unregistered] <;> tauto
    | some menu =>
      simp only [h, Option.isSome_some, if_true, Option.map_eq_some'] at h7 h8 h9
      obtain ⟨up, hup, hup2⟩ := h7
      obtain ⟨down, hdown, hdown2⟩ := h8
      obtain ⟨reset, hreset, hreset2⟩ := h9
      rw [hup, hdown, hreset]
      cases style <;>
        simp [HostCall.registered, HostCall.unregistered, hup2, hdown2, hreset2] <;> tauto
  · rw [hdr, hreg, h1, h2, h3, h6, List.filter_append]
    have hold : ∀ x ∈ σ.registrations, ∀ k : Nat, ¬ (x.action = σ.nextObject + k) :=
      fun x hx k => Nat.ne_of_lt (Nat.lt_of_lt_of_le (hfresh.1 x hx) (Nat.le_add_right _ k))
    cases h : σ.advancedMenu with
    | none =>
      simp only [h, Option.isSome_none, Bool.false_eq_true, if_false, Option.map_eq_none'] at h7 h8 h9
      rw [h7, h8, h9]
      rw [List.filter_eq_self.2 (fun x hx => by simp [hold x hx])]
      simp
    | some menu =>
      simp only [h, Option.isSome_some, if_true, Option.map_eq_some'] at h7 h8 h9
      obtain ⟨up, hup, hup2⟩ := h7
      obtain ⟨down, hdown, hdown2⟩ := h8
      obtain ⟨reset, hreset, hreset2⟩ := h9
      rw [hup, hdown, hreset]
      rw [List.filter_eq_self.2 (fun x hx => by simp [hold x hx, hup2, hdown2, hreset2])]
      simp [hup2, hdown2, hreset2]

/-- Witness for C8: in the demo host, which already holds a registration and a context
object, constructing and destroying a side bar widget restores both lists. -/
theorem construct_destroy_balanced_witness :
    demoWorld.Fresh ∧
    ((HelpWidget.new demoWorld ["Help.Sidebar"] WidgetStyle.SideBarWidget demoViewer).1.destroy
        (HelpWidget.new demoWorld ["Help.Sidebar"] WidgetStyle.SideBarWidget demoViewer).2
      ).registrations = demoWorld.registrations ∧
    ((HelpWidget.new demoWorld ["Help.Sidebar"] WidgetStyle.SideBarWidget demoViewer).1.destroy
        (HelpWidget.new demoWorld ["Help.Sidebar"] WidgetStyle.SideBarWidget demoViewer).2
      ).contextObjects = demoWorld.contextObjects :=
  ⟨⟨by decide, by decide⟩,
    (construct_destroy_balanced demoWorld ["Help.Sidebar"] WidgetStyle.SideBarWidget demoViewer
      ⟨by decide, by decide⟩).2.2⟩

/-! ## Window contexts -/

end Help.Internal
